import Mathlib

/-!
# BeastTlsOrTcpStream

A shallow embedding of `BeastTlsOrTcpStream.hpp`: a stream class derived from
`boost::beast::ssl_stream<boost::beast::tcp_stream>` that forwards
`async_write_some`, `async_read_some` and `async_teardown` either to the SSL
layer (the base class) or to the TCP layer (`next_layer()`), according to the
private flag `m_isTls`.

The Boost classes are external to the header.  Their state types and the
behaviour of their operations are parameters of the development (`Layers`);
every theorem quantifies over them.  Each call the header makes on one of the
two layers is recorded in a call trace, and each completion handler invocation
made by an asynchronous layer operation is recorded in a completion log, so
that "which layer was used, how often, with which arguments" is a statement
about the embedding.
-/

namespace BeastTlsOrTcp

/-! ## External collaborators -/

/-- The type `boost::beast::role_type`. -/
inductive role_type where
  | client
  | server
  deriving DecidableEq

/-- What an asynchronous read or write hands to its handler,
`void(boost::system::error_code, std::size_t)`. -/
structure IoResult (E : Type) where
  ec : E
  bytes_transferred : Nat
  deriving DecidableEq

/-- State of the base class `BeastTlsStream =
boost::beast::ssl_stream<boost::beast::tcp_stream>`: the SSL session and the
TCP stream it is layered on (`next_layer()`). -/
structure BeastTlsStream (Tcp Ssl : Type) where
  core : Ssl
  next_layer : Tcp
  deriving DecidableEq

/-- Behaviour of the two Boost layers.  A TCP operation acts on the TCP stream
only; an SSL operation acts on the whole base object, the TCP stream under it
included.  The result of an asynchronous operation is what it reports to its
handler. -/
structure Layers (Tcp Ssl B E Ioc Ctx Sock : Type) where
  /-- Base constructor `BeastTlsStream(ioc, sslCtx)`. -/
  base_client : Ioc → Ctx → BeastTlsStream Tcp Ssl
  /-- Base constructor `BeastTlsStream(std::move(tcpSocket), sslCtx)`. -/
  base_server : Sock → Ctx → BeastTlsStream Tcp Ssl
  tcp_async_write_some : B → Tcp → Tcp × IoResult E
  tcp_async_read_some : B → Tcp → Tcp × IoResult E
  tcp_close : Tcp → Tcp
  /-- Observation `socket().is_open()` of the TCP stream. -/
  tcp_is_open : Tcp → Bool
  tls_async_write_some : B → BeastTlsStream Tcp Ssl → BeastTlsStream Tcp Ssl × IoResult E
  tls_async_read_some : B → BeastTlsStream Tcp Ssl → BeastTlsStream Tcp Ssl × IoResult E
  tls_async_shutdown : BeastTlsStream Tcp Ssl → BeastTlsStream Tcp Ssl × E

/-- A call made on one of the two layers, with the arguments passed. -/
inductive Call (B H : Type) where
  | tcp_async_write_some (buffers : B) (handler : H)
  | tcp_async_read_some (buffers : B) (handler : H)
  | tcp_close
  | tls_async_write_some (buffers : B) (handler : H)
  | tls_async_read_some (buffers : B) (handler : H)
  | tls_async_shutdown (handler : H)
  deriving DecidableEq

/-- Whether the call is made on the SSL layer (`tls()`); otherwise it is made
on the TCP layer (`tcp()`). -/
def Call.onTls {B H : Type} : Call B H → Bool
  | .tcp_async_write_some _ _ => false
  | .tcp_async_read_some _ _ => false
  | .tcp_close => false
  | .tls_async_write_some _ _ => true
  | .tls_async_read_some _ _ => true
  | .tls_async_shutdown _ => true

/-- Whether the call is an SSL shutdown. -/
def Call.isShutdown {B H : Type} : Call B H → Bool
  | .tls_async_shutdown _ => true
  | _ => false

/-- Whether the call closes the TCP stream. -/
def Call.isClose {B H : Type} : Call B H → Bool
  | .tcp_close => true
  | _ => false

/-- An invocation of a completion handler. -/
inductive Completion (H E : Type) where
  | io (handler : H) (result : IoResult E)
  | shutdown (handler : H) (ec : E)
  deriving DecidableEq

/-! ## The class -/

/-- The class `BeastTlsOrTcpStream : public BeastTlsStream` with its private
member `bool m_isTls`. -/
structure BeastTlsOrTcpStream (Tcp Ssl : Type) extends BeastTlsStream Tcp Ssl where
  m_isTls : Bool
  deriving DecidableEq

/-- The object together with the calls made on its layers so far and the
handler invocations made so far. -/
structure World (Tcp Ssl B H E : Type) where
  stream : BeastTlsOrTcpStream Tcp Ssl
  trace : List (Call B H)
  completions : List (Completion H E)
  deriving DecidableEq

variable {Tcp Ssl B H E Ioc Ctx Sock : Type}

/-- Constructor "used as client": `BeastTlsStream(ioc, sslCtx)`, and
`m_isTls{false}`. -/
def BeastTlsOrTcpStream.client (P : Layers Tcp Ssl B E Ioc Ctx Sock) (ioc : Ioc) (sslCtx : Ctx) :
    BeastTlsOrTcpStream Tcp Ssl :=
  { toBeastTlsStream := P.base_client ioc sslCtx, m_isTls := false }

/-- Constructor "used as server": `BeastTlsStream(std::move(tcpSocket), sslCtx)`,
and `m_isTls{false}`. -/
def BeastTlsOrTcpStream.server (P : Layers Tcp Ssl B E Ioc Ctx Sock) (tcpSocket : Sock)
    (sslCtx : Ctx) : BeastTlsOrTcpStream Tcp Ssl :=
  { toBeastTlsStream := P.base_server tcpSocket sslCtx, m_isTls := false }

/-- A just constructed object: no call was made, no handler was invoked. -/
def World.fresh (s : BeastTlsOrTcpStream Tcp Ssl) : World Tcp Ssl B H E :=
  { stream := s, trace := [], completions := [] }

/-! ### Calls on the layers -/

/-- The call `tcp().async_write_some(buffers, handler)`. -/
def tcp_stream.async_write_some (P : Layers Tcp Ssl B E Ioc Ctx Sock) (buffers : B) (handler : H)
    (w : World Tcp Ssl B H E) : IoResult E × World Tcp Ssl B H E :=
  let r := P.tcp_async_write_some buffers w.stream.next_layer
  (r.2, { stream := { w.stream with next_layer := r.1 },
          trace := w.trace ++ [Call.tcp_async_write_some buffers handler],
          completions := w.completions ++ [Completion.io handler r.2] })

/-- The call `tcp().async_read_some(buffers, handler)`. -/
def tcp_stream.async_read_some (P : Layers Tcp Ssl B E Ioc Ctx Sock) (buffers : B) (handler : H)
    (w : World Tcp Ssl B H E) : IoResult E × World Tcp Ssl B H E :=
  let r := P.tcp_async_read_some buffers w.stream.next_layer
  (r.2, { stream := { w.stream with next_layer := r.1 },
          trace := w.trace ++ [Call.tcp_async_read_some buffers handler],
          completions := w.completions ++ [Completion.io handler r.2] })

/-- The call `tcp().close()`.  It takes no handler. -/
def tcp_stream.close (P : Layers Tcp Ssl B E Ioc Ctx Sock) (w : World Tcp Ssl B H E) :
    World Tcp Ssl B H E :=
  { stream := { w.stream with next_layer := P.tcp_close w.stream.next_layer },
    trace := w.trace ++ [Call.tcp_close],
    completions := w.completions }

/-- The call `tls().async_write_some(buffers, handler)`. -/
def ssl_stream.async_write_some (P : Layers Tcp Ssl B E Ioc Ctx Sock) (buffers : B) (handler : H)
    (w : World Tcp Ssl B H E) : IoResult E × World Tcp Ssl B H E :=
  let r := P.tls_async_write_some buffers w.stream.toBeastTlsStream
  (r.2, { stream := { w.stream with toBeastTlsStream := r.1 },
          trace := w.trace ++ [Call.tls_async_write_some buffers handler],
          completions := w.completions ++ [Completion.io handler r.2] })

/-- The call `tls().async_read_some(buffers, handler)`. -/
def ssl_stream.async_read_some (P : Layers Tcp Ssl B E Ioc Ctx Sock) (buffers : B) (handler : H)
    (w : World Tcp Ssl B H E) : IoResult E × World Tcp Ssl B H E :=
  let r := P.tls_async_read_some buffers w.stream.toBeastTlsStream
  (r.2, { stream := { w.stream with toBeastTlsStream := r.1 },
          trace := w.trace ++ [Call.tls_async_read_some buffers handler],
          completions := w.completions ++ [Completion.io handler r.2] })

/-- The call `tls().async_shutdown(handler)`. -/
def ssl_stream.async_shutdown (P : Layers Tcp Ssl B E Ioc Ctx Sock) (handler : H)
    (w : World Tcp Ssl B H E) : World Tcp Ssl B H E :=
  let r := P.tls_async_shutdown w.stream.toBeastTlsStream
  { stream := { w.stream with toBeastTlsStream := r.1 },
    trace := w.trace ++ [Call.tls_async_shutdown handler],
    completions := w.completions ++ [Completion.shutdown handler r.2] }

/-! ### Members of `BeastTlsOrTcpStream` -/

/-- Member `void setIsTls(bool isTls = true) { m_isTls = isTls; }`; `none` is
the call without an argument. -/
def setIsTls (isTls : Option Bool) (w : World Tcp Ssl B H E) : World Tcp Ssl B H E :=
  { w with stream := { w.stream with m_isTls := isTls.getD true } }

/-- Member `bool isTls() { return m_isTls; }`: the value returned and the
object after the call. -/
def isTls (w : World Tcp Ssl B H E) : Bool × World Tcp Ssl B H E :=
  (w.stream.m_isTls, w)

/-- Member `tcp_stream &tcp() { return next_layer(); }`: the value returned
and the object after the call. -/
def tcp (w : World Tcp Ssl B H E) : Tcp × World Tcp Ssl B H E :=
  (w.stream.next_layer, w)

/-- Member `async_write_some(buffers, handler)`. -/
def async_write_some (P : Layers Tcp Ssl B E Ioc Ctx Sock) (buffers : B) (handler : H)
    (w : World Tcp Ssl B H E) : IoResult E × World Tcp Ssl B H E :=
  if w.stream.m_isTls then
    ssl_stream.async_write_some P buffers handler w
  else
    tcp_stream.async_write_some P buffers handler w

/-- Member `async_read_some(buffers, handler)`. -/
def async_read_some (P : Layers Tcp Ssl B E Ioc Ctx Sock) (buffers : B) (handler : H)
    (w : World Tcp Ssl B H E) : IoResult E × World Tcp Ssl B H E :=
  if w.stream.m_isTls then
    ssl_stream.async_read_some P buffers handler w
  else
    tcp_stream.async_read_some P buffers handler w

/-- Friend `async_teardown(role, stream, handler)`. -/
def async_teardown (P : Layers Tcp Ssl B E Ioc Ctx Sock) (_role : role_type) (handler : H)
    (w : World Tcp Ssl B H E) : World Tcp Ssl B H E :=
  if (isTls w).1 then
    ssl_stream.async_shutdown P handler (isTls w).2
  else
    tcp_stream.close P (isTls w).2

/-! ### Sequences of calls -/

/-- A read or a write issued by a caller. -/
inductive Op (B H : Type) where
  | read (buffers : B) (handler : H)
  | write (buffers : B) (handler : H)
  deriving DecidableEq

/-- Issue one read or write on the object. -/
def Op.run (P : Layers Tcp Ssl B E Ioc Ctx Sock) :
    Op B H → World Tcp Ssl B H E → IoResult E × World Tcp Ssl B H E
  | .read buffers handler, w => async_read_some P buffers handler w
  | .write buffers handler, w => async_write_some P buffers handler w

/-- Issue the reads and writes one after the other; the results in order, and
the object at the end. -/
def runOps (P : Layers Tcp Ssl B E Ioc Ctx Sock) :
    List (Op B H) → World Tcp Ssl B H E → List (IoResult E) × World Tcp Ssl B H E
  | [], w => ([], w)
  | op :: ops, w =>
    let r := op.run P w
    let rs := runOps P ops r.2
    (r.1 :: rs.1, rs.2)

/-- The same reads and writes issued on the TCP stream itself, with no
`BeastTlsOrTcpStream` around it: the results in order, and the TCP stream at
the end. -/
def rawOps (P : Layers Tcp Ssl B E Ioc Ctx Sock) : List (Op B H) → Tcp → List (IoResult E) × Tcp
  | [], t => ([], t)
  | .read buffers _ :: ops, t =>
    let r := P.tcp_async_read_some buffers t
    let rs := rawOps P ops r.1
    (r.2 :: rs.1, rs.2)
  | .write buffers _ :: ops, t =>
    let r := P.tcp_async_write_some buffers t
    let rs := rawOps P ops r.1
    (r.2 :: rs.1, rs.2)

/-- The calls a sequence of reads and writes makes when each goes to the TCP
layer. -/
def tcpCalls : List (Op B H) → List (Call B H)
  | [] => []
  | .read buffers handler :: ops => Call.tcp_async_read_some buffers handler :: tcpCalls ops
  | .write buffers handler :: ops => Call.tcp_async_write_some buffers handler :: tcpCalls ops

/-- A sequence of `setIsTls` calls, first to last. -/
def setIsTlsSeq (args : List (Option Bool)) (w : World Tcp Ssl B H E) : World Tcp Ssl B H E :=
  args.foldl (fun v a => setIsTls a v) w

/-- The flag value asked for by the last call of a sequence of `setIsTls`
calls, if there is a call: the argument of that call, `true` when the call has
no argument. -/
def lastSetIsTls (args : List (Option Bool)) : Option Bool :=
  args.getLast?.map (fun a => a.getD true)

/-! ## Concrete layers for the examples -/

/-- Error codes of the example layers. -/
inductive DemoError where
  | success
  | eof
  | timed_out
  | session_failed
  deriving DecidableEq

/-- TCP stream of the example layers: whether the socket is open, and the
bytes written to it. -/
structure DemoTcp where
  is_open : Bool
  wire : List Nat
  deriving DecidableEq

/-- Example layers.  A TCP write appends the buffer to the wire and succeeds
with its length; a TCP read reports end of stream; `close` closes the socket.
Every SSL operation reports `sessionEc` with zero bytes, counts itself in the
session state and leaves the TCP stream as it is (as the shutdown of
`boost::asio::ssl::stream` leaves the socket open). -/
def demoLayers (sessionEc : DemoError) : Layers DemoTcp Nat (List Nat) DemoError Unit Unit DemoTcp where
  base_client := fun _ _ => { core := 0, next_layer := { is_open := false, wire := [] } }
  base_server := fun sock _ => { core := 0, next_layer := sock }
  tcp_async_write_some := fun b t => ({ t with wire := t.wire ++ b }, { ec := .success, bytes_transferred := b.length })
  tcp_async_read_some := fun _ t => (t, { ec := .eof, bytes_transferred := 0 })
  tcp_close := fun t => { t with is_open := false }
  tcp_is_open := fun t => t.is_open
  tls_async_write_some := fun _ s => ({ s with core := s.core + 1 }, { ec := sessionEc, bytes_transferred := 0 })
  tls_async_read_some := fun _ s => ({ s with core := s.core + 1 }, { ec := sessionEc, bytes_transferred := 0 })
  tls_async_shutdown := fun s => ({ s with core := s.core + 1 }, sessionEc)

/-- An accepted, open socket. -/
def demoSocket : DemoTcp := { is_open := true, wire := [] }

/-- Example object in TCP mode: the server constructor on an open socket. -/
def demoPlain (sessionEc : DemoError) : World DemoTcp Nat (List Nat) Nat DemoError :=
  World.fresh (BeastTlsOrTcpStream.server (demoLayers sessionEc) demoSocket ())

/-- Example object in TLS mode: the server constructor on an open socket, then
`setIsTls()`. -/
def demoTls (sessionEc : DemoError) : World DemoTcp Nat (List Nat) Nat DemoError :=
  setIsTls none (demoPlain sessionEc)

/-! ## Lemmas on sequences -/

/-- A read or write in TCP mode leaves the flag unset. -/
theorem Op.run_tcp_mode (P : Layers Tcp Ssl B E Ioc Ctx Sock) (op : Op B H)
    (w : World Tcp Ssl B H E) (hm : w.stream.m_isTls = false) :
    (op.run P w).2.stream.m_isTls = false := by
  cases op <;>
    simp [Op.run, async_read_some, async_write_some, hm, tcp_stream.async_read_some,
      tcp_stream.async_write_some]

/-- Reads and writes in TCP mode: the results, the TCP stream at the end and
the calls made are those of the same operations on the TCP stream alone; the
SSL session and the flag are as before. -/
theorem runOps_tcp_mode (P : Layers Tcp Ssl B E Ioc Ctx Sock) (ops : List (Op B H)) :
    ∀ w : World Tcp Ssl B H E, w.stream.m_isTls = false →
      (runOps P ops w).1 = (rawOps P ops w.stream.next_layer).1 ∧
      (runOps P ops w).2.stream.next_layer = (rawOps P ops w.stream.next_layer).2 ∧
      (runOps P ops w).2.stream.core = w.stream.core ∧
      (runOps P ops w).2.stream.m_isTls = false ∧
      (runOps P ops w).2.trace = w.trace ++ tcpCalls ops := by
  induction ops with
  | nil => intro w hm; simp [runOps, rawOps, tcpCalls, hm]
  | cons op ops ih =>
    intro w hm
    have h := ih (op.run P w).2 (Op.run_tcp_mode P op w hm)
    cases op <;>
      simp_all [runOps, rawOps, tcpCalls, Op.run, async_read_some, async_write_some,
        tcp_stream.async_read_some, tcp_stream.async_write_some]

/-- The operations on the TCP stream alone depend on the TCP layer only. -/
theorem rawOps_congr (P Q : Layers Tcp Ssl B E Ioc Ctx Sock)
    (hw : Q.tcp_async_write_some = P.tcp_async_write_some)
    (hr : Q.tcp_async_read_some = P.tcp_async_read_some) (ops : List (Op B H)) :
    ∀ t : Tcp, rawOps Q ops t = rawOps P ops t := by
  induction ops with
  | nil => intro t; rfl
  | cons op ops ih =>
    intro t
    cases op <;> simp [rawOps, hw, hr, ih]

/-- No call of `tcpCalls` is on the SSL layer. -/
theorem tcpCalls_onTls (ops : List (Op B H)) : ∀ c ∈ tcpCalls ops, c.onTls = false := by
  induction ops with
  | nil => intro c hc; simp [tcpCalls] at hc
  | cons op ops ih =>
    intro c hc
    cases op <;>
    · simp only [tcpCalls, List.mem_cons] at hc
      rcases hc with rfl | hc
      · rfl
      · exact ih c hc

/-- A sequence of `setIsTls` calls that ends with `a` leaves the flag at the
value of `a`. -/
theorem setIsTlsSeq_append_one (args : List (Option Bool)) (a : Option Bool)
    (w : World Tcp Ssl B H E) :
    (setIsTlsSeq (args ++ [a]) w).stream.m_isTls = a.getD true := by
  simp [setIsTlsSeq, List.foldl_append, setIsTls]

/-- A read or write leaves the flag as it was. -/
theorem Op.run_keeps_flag (P : Layers Tcp Ssl B E Ioc Ctx Sock) (op : Op B H)
    (w : World Tcp Ssl B H E) : (op.run P w).2.stream.m_isTls = w.stream.m_isTls := by
  cases op <;> cases hv : w.stream.m_isTls <;>
    simp [Op.run, async_read_some, async_write_some, hv, tcp_stream.async_read_some,
      tcp_stream.async_write_some, ssl_stream.async_read_some, ssl_stream.async_write_some]

/-- A sequence of reads and writes leaves the flag as it was. -/
theorem runOps_keeps_flag (P : Layers Tcp Ssl B E Ioc Ctx Sock) (ops : List (Op B H)) :
    ∀ w : World Tcp Ssl B H E, (runOps P ops w).2.stream.m_isTls = w.stream.m_isTls := by
  induction ops with
  | nil => intro w; rfl
  | cons op ops ih =>
    intro w
    simp only [runOps]
    rw [ih, Op.run_keeps_flag]

/-- After a sequence of `setIsTls` calls the flag has the value asked for by
the last call, and its old value if the sequence is empty. -/
theorem setIsTlsSeq_flag (args : List (Option Bool)) :
    ∀ w : World Tcp Ssl B H E,
      (setIsTlsSeq args w).stream.m_isTls = (lastSetIsTls args).getD w.stream.m_isTls := by
  induction args with
  | nil => intro w; rfl
  | cons a rest ih =>
    intro w
    have h := ih (setIsTls a w)
    cases rest with
    | nil => simp [setIsTlsSeq, lastSetIsTls, setIsTls]
    | cons b more =>
      have hx : (b :: more).getLast? = some ((b :: more).getLast (List.cons_ne_nil b more)) :=
        List.getLast?_eq_getLast (b :: more) (List.cons_ne_nil b more)
      simp only [setIsTlsSeq, List.foldl_cons] at h ⊢
      rw [h]
      simp [lastSetIsTls, List.getLast?_cons_cons, hx]

/-- Each of read, write and teardown makes exactly one call, on the SSL layer
if the flag is set and on the TCP layer if not. -/
theorem one_call_on_selected_layer (P : Layers Tcp Ssl B E Ioc Ctx Sock)
    (v : World Tcp Ssl B H E) (buffers : B) (handler : H) (role : role_type) :
    (∃ c, (async_read_some P buffers handler v).2.trace = v.trace ++ [c] ∧
      c.onTls = v.stream.m_isTls) ∧
    (∃ c, (async_write_some P buffers handler v).2.trace = v.trace ++ [c] ∧
      c.onTls = v.stream.m_isTls) ∧
    (∃ c, (async_teardown P role handler v).trace = v.trace ++ [c] ∧
      c.onTls = v.stream.m_isTls) := by
  cases hv : v.stream.m_isTls
  · refine ⟨⟨Call.tcp_async_read_some buffers handler, ?_, rfl⟩,
      ⟨Call.tcp_async_write_some buffers handler, ?_, rfl⟩, ⟨Call.tcp_close, ?_, rfl⟩⟩
    · simp [async_read_some, hv, tcp_stream.async_read_some]
    · simp [async_write_some, hv, tcp_stream.async_write_some]
    · simp [async_teardown, isTls, hv, tcp_stream.close]
  · refine ⟨⟨Call.tls_async_read_some buffers handler, ?_, rfl⟩,
      ⟨Call.tls_async_write_some buffers handler, ?_, rfl⟩,
      ⟨Call.tls_async_shutdown handler, ?_, rfl⟩⟩
    · simp [async_read_some, hv, ssl_stream.async_read_some]
    · simp [async_write_some, hv, ssl_stream.async_write_some]
    · simp [async_teardown, isTls, hv, ssl_stream.async_shutdown]

/-! ## Theorems -/

/-- C1: `async_write_some` in TCP mode (`m_isTls = false`) makes exactly one
call, `tcp().async_write_some` with the caller's buffers and handler, and no
call on the SSL layer, whose state stays as it was; in TLS mode
(`m_isTls = true`) it makes exactly one call, `tls().async_write_some` with
the caller's buffers and handler, and no direct call on the TCP layer.  In both
modes the value returned, and the one the handler is invoked with (once), is
the result of the selected layer operation. -/
theorem async_write_some_dispatch (P : Layers Tcp Ssl B E Ioc Ctx Sock) (buffers : B)
    (handler : H) (w : World Tcp Ssl B H E) :
    (w.stream.m_isTls = false →
      (async_write_some P buffers handler w).1
          = (P.tcp_async_write_some buffers w.stream.next_layer).2 ∧
      (async_write_some P buffers handler w).2.trace
          = w.trace ++ [Call.tcp_async_write_some buffers handler] ∧
      (async_write_some P buffers handler w).2.completions
          = w.completions ++
            [Completion.io handler (P.tcp_async_write_some buffers w.stream.next_layer).2] ∧
      (async_write_some P buffers handler w).2.stream.next_layer
          = (P.tcp_async_write_some buffers w.stream.next_layer).1 ∧
      (async_write_some P buffers handler w).2.stream.core = w.stream.core) ∧
    (w.stream.m_isTls = true →
      (async_write_some P buffers handler w).1
          = (P.tls_async_write_some buffers w.stream.toBeastTlsStream).2 ∧
      (async_write_some P buffers handler w).2.trace
          = w.trace ++ [Call.tls_async_write_some buffers handler] ∧
      (async_write_some P buffers handler w).2.completions
          = w.completions ++
            [Completion.io handler (P.tls_async_write_some buffers w.stream.toBeastTlsStream).2] ∧
      (async_write_some P buffers handler w).2.stream.toBeastTlsStream
          = (P.tls_async_write_some buffers w.stream.toBeastTlsStream).1) := by
  constructor
  · intro hm
    simp [async_write_some, hm, tcp_stream.async_write_some]
  · intro hm
    simp [async_write_some, hm, ssl_stream.async_write_some]

/-- Witness of C1: a write of `[1, 2, 3]` with handler 7 on the example object,
in TCP mode over a session that fails, and in TLS mode. -/
theorem async_write_some_dispatch_witness :
    ((async_write_some (demoLayers .session_failed) [1, 2, 3] 7
          (demoPlain .session_failed)).1 = { ec := .success, bytes_transferred := 3 } ∧
      (async_write_some (demoLayers .session_failed) [1, 2, 3] 7
          (demoPlain .session_failed)).2.trace = [Call.tcp_async_write_some [1, 2, 3] 7]) ∧
    ((async_write_some (demoLayers .session_failed) [1, 2, 3] 7
          (demoTls .session_failed)).1 = { ec := .session_failed, bytes_transferred := 0 } ∧
      (async_write_some (demoLayers .session_failed) [1, 2, 3] 7
          (demoTls .session_failed)).2.trace = [Call.tls_async_write_some [1, 2, 3] 7]) := by
  have hp := (async_write_some_dispatch (demoLayers .session_failed) [1, 2, 3] 7
    (demoPlain .session_failed)).1 rfl
  have ht := (async_write_some_dispatch (demoLayers .session_failed) [1, 2, 3] 7
    (demoTls .session_failed)).2 rfl
  exact ⟨⟨hp.1, hp.2.1⟩, ⟨ht.1, ht.2.1⟩⟩

/-- C2: `async_read_some` dispatches like `async_write_some`: in TCP mode it
makes exactly one call, `tcp().async_read_some` with the caller's buffers and
handler, and none on the SSL layer; in TLS mode exactly one call,
`tls().async_read_some` with the caller's buffers and handler.  The value
returned, and the one the handler is invoked with (once), is the result of the
selected layer operation, error code and byte count alike: an error code of
the layer is never replaced by another value. -/
theorem async_read_some_dispatch (P : Layers Tcp Ssl B E Ioc Ctx Sock) (buffers : B)
    (handler : H) (w : World Tcp Ssl B H E) :
    (w.stream.m_isTls = false →
      (async_read_some P buffers handler w).1
          = (P.tcp_async_read_some buffers w.stream.next_layer).2 ∧
      (async_read_some P buffers handler w).2.trace
          = w.trace ++ [Call.tcp_async_read_some buffers handler] ∧
      (async_read_some P buffers handler w).2.completions
          = w.completions ++
            [Completion.io handler (P.tcp_async_read_some buffers w.stream.next_layer).2] ∧
      (async_read_some P buffers handler w).2.stream.next_layer
          = (P.tcp_async_read_some buffers w.stream.next_layer).1 ∧
      (async_read_some P buffers handler w).2.stream.core = w.stream.core) ∧
    (w.stream.m_isTls = true →
      (async_read_some P buffers handler w).1
          = (P.tls_async_read_some buffers w.stream.toBeastTlsStream).2 ∧
      (async_read_some P buffers handler w).2.trace
          = w.trace ++ [Call.tls_async_read_some buffers handler] ∧
      (async_read_some P buffers handler w).2.completions
          = w.completions ++
            [Completion.io handler (P.tls_async_read_some buffers w.stream.toBeastTlsStream).2] ∧
      (async_read_some P buffers handler w).2.stream.toBeastTlsStream
          = (P.tls_async_read_some buffers w.stream.toBeastTlsStream).1) := by
  constructor
  · intro hm
    simp [async_read_some, hm, tcp_stream.async_read_some]
  · intro hm
    simp [async_read_some, hm, ssl_stream.async_read_some]

/-- Witness of C2: a read with handler 7 on the example object.  In TCP mode
the end of stream reported by the TCP layer is what the caller gets, as an
error; in TLS mode the caller gets the session's error. -/
theorem async_read_some_dispatch_witness :
    ((async_read_some (demoLayers .session_failed) [0, 0] 7
          (demoPlain .session_failed)).1 = { ec := .eof, bytes_transferred := 0 } ∧
      (async_read_some (demoLayers .session_failed) [0, 0] 7
          (demoPlain .session_failed)).2.completions
        = [Completion.io 7 { ec := .eof, bytes_transferred := 0 }]) ∧
    ((async_read_some (demoLayers .session_failed) [0, 0] 7
          (demoTls .session_failed)).1 = { ec := .session_failed, bytes_transferred := 0 } ∧
      (async_read_some (demoLayers .session_failed) [0, 0] 7
          (demoTls .session_failed)).2.trace = [Call.tls_async_read_some [0, 0] 7]) := by
  have hp := (async_read_some_dispatch (demoLayers .session_failed) [0, 0] 7
    (demoPlain .session_failed)).1 rfl
  have ht := (async_read_some_dispatch (demoLayers .session_failed) [0, 0] 7
    (demoTls .session_failed)).2 rfl
  exact ⟨⟨hp.1, hp.2.2.1⟩, ⟨ht.1, ht.2.1⟩⟩

/-- C3, as the header behaves: in TCP mode `async_teardown` closes the TCP
stream (for a `close` that leaves the socket not open).  In TLS mode it makes
exactly one call, `tls().async_shutdown`, and no `close` on the TCP stream:
the object after teardown is the one the SSL shutdown leaves, whatever error
code the shutdown reports. -/
theorem async_teardown_closes_in_tcp_mode (P : Layers Tcp Ssl B E Ioc Ctx Sock)
    (hclose : ∀ t, P.tcp_is_open (P.tcp_close t) = false)
    (role : role_type) (handler : H) (w : World Tcp Ssl B H E) :
    (w.stream.m_isTls = false →
      P.tcp_is_open (async_teardown P role handler w).stream.next_layer = false) ∧
    (w.stream.m_isTls = true →
      (async_teardown P role handler w).stream.toBeastTlsStream
          = (P.tls_async_shutdown w.stream.toBeastTlsStream).1 ∧
      (async_teardown P role handler w).trace = w.trace ++ [Call.tls_async_shutdown handler] ∧
      ((async_teardown P role handler w).trace.countP Call.isClose
          = w.trace.countP Call.isClose)) := by
  constructor
  · intro hm
    simp [async_teardown, isTls, hm, tcp_stream.close, hclose]
  · intro hm
    simp [async_teardown, isTls, hm, ssl_stream.async_shutdown, List.countP_append,
      List.countP_cons, Call.isClose]

/-- Witness of C3 as amended: teardown of the example object in TCP mode
leaves the socket closed. -/
theorem async_teardown_closes_in_tcp_mode_witness :
    (demoLayers .success).tcp_is_open (demoPlain .success).stream.next_layer = true ∧
    (demoLayers .success).tcp_is_open
      (async_teardown (demoLayers .success) .server 7 (demoPlain .success)).stream.next_layer
        = false :=
  ⟨rfl, (async_teardown_closes_in_tcp_mode (demoLayers .success) (fun _ => rfl) .server 7
    (demoPlain .success)).1 rfl⟩

/-- Counterexample to C3 as stated: the example object in TLS mode, over a
session whose shutdown leaves the socket as it is.  When the shutdown times
out, teardown has completed (the handler was invoked with the error), no
`close` was called and the socket is still open; likewise when the shutdown
succeeds. -/
theorem async_teardown_tls_mode_leaves_socket_open :
    (demoTls .timed_out).stream.m_isTls = true ∧
    (async_teardown (demoLayers .timed_out) .server 7 (demoTls .timed_out)).completions
        = [Completion.shutdown 7 .timed_out] ∧
    (async_teardown (demoLayers .timed_out) .server 7 (demoTls .timed_out)).trace
        = [Call.tls_async_shutdown 7] ∧
    (demoLayers .timed_out).tcp_is_open
      (async_teardown (demoLayers .timed_out) .server 7 (demoTls .timed_out)).stream.next_layer
        = true ∧
    (async_teardown (demoLayers .success) .server 7 (demoTls .success)).completions
        = [Completion.shutdown 7 .success] ∧
    (demoLayers .success).tcp_is_open
      (async_teardown (demoLayers .success) .server 7 (demoTls .success)).stream.next_layer
        = true := by
  decide

/-- C4: in TCP mode `async_teardown` makes exactly one call, `tcp().close()`,
and no SSL shutdown; the SSL session stays as it was.  In particular, for an
object just built by either constructor, with no `setIsTls` call and no I/O,
the calls of teardown are `tcp().close()` alone: one close, zero shutdowns. -/
theorem async_teardown_tcp_mode (P : Layers Tcp Ssl B E Ioc Ctx Sock) (role : role_type)
    (handler : H) (w : World Tcp Ssl B H E) (ioc : Ioc) (tcpSocket : Sock) (sslCtx : Ctx) :
    (w.stream.m_isTls = false →
      (async_teardown P role handler w).trace = w.trace ++ [Call.tcp_close] ∧
      (async_teardown P role handler w).stream.next_layer = P.tcp_close w.stream.next_layer ∧
      (async_teardown P role handler w).stream.core = w.stream.core ∧
      ((async_teardown P role handler w).trace.countP Call.isShutdown
          = w.trace.countP Call.isShutdown)) ∧
    ((async_teardown P role handler
        (World.fresh (BeastTlsOrTcpStream.client P ioc sslCtx) : World Tcp Ssl B H E)).trace
        = [Call.tcp_close] ∧
      (async_teardown P role handler
        (World.fresh (BeastTlsOrTcpStream.client P ioc sslCtx) : World Tcp Ssl B H E)).stream.next_layer
        = P.tcp_close (P.base_client ioc sslCtx).next_layer ∧
      (async_teardown P role handler
        (World.fresh (BeastTlsOrTcpStream.client P ioc sslCtx) :
          World Tcp Ssl B H E)).trace.countP Call.isShutdown = 0) ∧
    ((async_teardown P role handler
        (World.fresh (BeastTlsOrTcpStream.server P tcpSocket sslCtx) : World Tcp Ssl B H E)).trace
        = [Call.tcp_close] ∧
      (async_teardown P role handler
        (World.fresh (BeastTlsOrTcpStream.server P tcpSocket sslCtx) :
          World Tcp Ssl B H E)).stream.next_layer
        = P.tcp_close (P.base_server tcpSocket sslCtx).next_layer ∧
      (async_teardown P role handler
        (World.fresh (BeastTlsOrTcpStream.server P tcpSocket sslCtx) :
          World Tcp Ssl B H E)).trace.countP Call.isShutdown = 0) := by
  refine ⟨?_, ?_, ?_⟩
  · intro hm
    simp [async_teardown, isTls, hm, tcp_stream.close, List.countP_append, List.countP_cons,
      Call.isShutdown]
  · simp [async_teardown, isTls, tcp_stream.close, World.fresh, BeastTlsOrTcpStream.client,
      List.countP_cons, Call.isShutdown]
  · simp [async_teardown, isTls, tcp_stream.close, World.fresh, BeastTlsOrTcpStream.server,
      List.countP_cons, Call.isShutdown]

/-- Witness of C4: teardown of the example object right after the server
constructor, over a session that fails whenever it is used. -/
theorem async_teardown_tcp_mode_witness :
    (async_teardown (demoLayers .session_failed) .server 7 (demoPlain .session_failed)).trace
        = [Call.tcp_close] ∧
    (async_teardown (demoLayers .session_failed) .server 7
        (demoPlain .session_failed)).stream.core = 0 :=
  ⟨((async_teardown_tcp_mode (demoLayers .session_failed) .server 7 (demoPlain .session_failed)
      () demoSocket ()).1 rfl).1,
   ((async_teardown_tcp_mode (demoLayers .session_failed) .server 7 (demoPlain .session_failed)
      () demoSocket ()).1 rfl).2.2.1⟩

/-- C5: in TLS mode `async_teardown` makes exactly one call,
`tls().async_shutdown` with the caller's handler, and the handler is invoked
exactly once, with the error code that shutdown reports, success or failure. -/
theorem async_teardown_tls_mode (P : Layers Tcp Ssl B E Ioc Ctx Sock) (role : role_type)
    (handler : H) (w : World Tcp Ssl B H E) (hm : w.stream.m_isTls = true) :
    (async_teardown P role handler w).trace = w.trace ++ [Call.tls_async_shutdown handler] ∧
    (async_teardown P role handler w).completions
        = w.completions ++
          [Completion.shutdown handler (P.tls_async_shutdown w.stream.toBeastTlsStream).2] ∧
    ((async_teardown P role handler w).trace.countP Call.isShutdown
        = w.trace.countP Call.isShutdown + 1) := by
  simp [async_teardown, isTls, hm, ssl_stream.async_shutdown, List.countP_append,
    List.countP_cons, Call.isShutdown]

/-- Witness of C5: teardown of the example object in TLS mode, over a session
whose shutdown fails; the handler gets that failure. -/
theorem async_teardown_tls_mode_witness :
    (demoTls .session_failed).stream.m_isTls = true ∧
    (async_teardown (demoLayers .session_failed) .client 7 (demoTls .session_failed)).completions
        = [Completion.shutdown 7 .session_failed] :=
  ⟨rfl, (async_teardown_tls_mode (demoLayers .session_failed) .client 7
    (demoTls .session_failed) rfl).2.1⟩

/-- C6: `isTls()` returns false right after either constructor, and after any
finite sequence of `setIsTls` calls it returns the argument of the last call of
the sequence, where a call without an argument counts as `setIsTls(true)`;
after an empty sequence it returns what it returned before. -/
theorem isTls_reflects_last_setIsTls (P : Layers Tcp Ssl B E Ioc Ctx Sock) (ioc : Ioc)
    (tcpSocket : Sock) (sslCtx : Ctx) (args : List (Option Bool)) (isTlsArg : Bool)
    (w : World Tcp Ssl B H E) :
    (isTls (World.fresh (BeastTlsOrTcpStream.client P ioc sslCtx) : World Tcp Ssl B H E)).1
        = false ∧
    (isTls (World.fresh (BeastTlsOrTcpStream.server P tcpSocket sslCtx) : World Tcp Ssl B H E)).1
        = false ∧
    (isTls (setIsTlsSeq args w)).1 = (lastSetIsTls args).getD (isTls w).1 ∧
    (isTls (setIsTlsSeq args
        (World.fresh (BeastTlsOrTcpStream.client P ioc sslCtx) : World Tcp Ssl B H E))).1
      = (lastSetIsTls args).getD false ∧
    (isTls (setIsTlsSeq args
        (World.fresh (BeastTlsOrTcpStream.server P tcpSocket sslCtx) : World Tcp Ssl B H E))).1
      = (lastSetIsTls args).getD false ∧
    (isTls (setIsTlsSeq (args ++ [some isTlsArg]) w)).1 = isTlsArg ∧
    (isTls (setIsTlsSeq (args ++ [none]) w)).1 = true := by
  refine ⟨rfl, rfl, setIsTlsSeq_flag args w, setIsTlsSeq_flag args _, setIsTlsSeq_flag args _,
    ?_, ?_⟩
  · simpa [isTls] using setIsTlsSeq_append_one args (some isTlsArg) w
  · simpa [isTls] using setIsTlsSeq_append_one args none w

/-- C7: for every finite sequence of reads and writes issued in TCP mode, the
results are those of the same operations on the TCP stream alone, every call
made is on the TCP layer, the SSL session is as it was, and the results are the
same over any other SSL layer (one whose every operation fails included).  For
every object, each of read, write and teardown makes exactly one call, on the
SSL layer if `m_isTls` is set and on the TCP layer if not. -/
theorem tcp_mode_never_touches_session (P : Layers Tcp Ssl B E Ioc Ctx Sock)
    (ops : List (Op B H)) (w : World Tcp Ssl B H E) (hm : w.stream.m_isTls = false) :
    (runOps P ops w).1 = (rawOps P ops w.stream.next_layer).1 ∧
    (runOps P ops w).2.stream.next_layer = (rawOps P ops w.stream.next_layer).2 ∧
    (runOps P ops w).2.stream.core = w.stream.core ∧
    (runOps P ops w).2.trace = w.trace ++ tcpCalls ops ∧
    (∀ c ∈ tcpCalls ops, c.onTls = false) ∧
    (∀ Q : Layers Tcp Ssl B E Ioc Ctx Sock,
      Q.tcp_async_write_some = P.tcp_async_write_some →
      Q.tcp_async_read_some = P.tcp_async_read_some →
      (runOps Q ops w).1 = (runOps P ops w).1) ∧
    (∀ (v : World Tcp Ssl B H E) (buffers : B) (handler : H) (role : role_type),
      (∃ c, (async_read_some P buffers handler v).2.trace = v.trace ++ [c] ∧
        c.onTls = v.stream.m_isTls) ∧
      (∃ c, (async_write_some P buffers handler v).2.trace = v.trace ++ [c] ∧
        c.onTls = v.stream.m_isTls) ∧
      (∃ c, (async_teardown P role handler v).trace = v.trace ++ [c] ∧
        c.onTls = v.stream.m_isTls)) := by
  have h := runOps_tcp_mode P ops w hm
  refine ⟨h.1, h.2.1, h.2.2.1, h.2.2.2.2, tcpCalls_onTls ops, ?_, ?_⟩
  · intro Q hw hr
    rw [(runOps_tcp_mode Q ops w hm).1, h.1, rawOps_congr P Q hw hr]
  · intro v buffers handler role
    exact one_call_on_selected_layer P v buffers handler role

/-- Witness of C7: a write, a read and a write on the example object in TCP
mode, over a session whose every operation fails: the results are those of the
TCP layer, none is the session's failure, and the session was not used. -/
theorem tcp_mode_never_touches_session_witness :
    (demoPlain .session_failed).stream.m_isTls = false ∧
    (runOps (demoLayers .session_failed) [Op.write [1, 2] 7, Op.read [0] 8, Op.write [3] 9]
        (demoPlain .session_failed)).1
      = [{ ec := .success, bytes_transferred := 2 }, { ec := .eof, bytes_transferred := 0 },
         { ec := .success, bytes_transferred := 1 }] ∧
    (runOps (demoLayers .session_failed) [Op.write [1, 2] 7, Op.read [0] 8, Op.write [3] 9]
        (demoPlain .session_failed)).2.stream.core = 0 :=
  ⟨rfl,
   (tcp_mode_never_touches_session (demoLayers .session_failed)
      [Op.write [1, 2] 7, Op.read [0] 8, Op.write [3] 9] (demoPlain .session_failed) rfl).1,
   (tcp_mode_never_touches_session (demoLayers .session_failed)
      [Op.write [1, 2] 7, Op.read [0] 8, Op.write [3] 9] (demoPlain .session_failed) rfl).2.2.1⟩

/-- C8: `setIsTls` makes no call on either layer and invokes no handler; it
leaves the TCP stream and the SSL session as they were and sets the flag to its
argument.  `isTls` leaves the whole object as it was. -/
theorem setIsTls_isTls_pure (isTlsArg : Option Bool) (w : World Tcp Ssl B H E) :
    (setIsTls isTlsArg w).trace = w.trace ∧
    (setIsTls isTlsArg w).completions = w.completions ∧
    (setIsTls isTlsArg w).stream.toBeastTlsStream = w.stream.toBeastTlsStream ∧
    (setIsTls isTlsArg w).stream.m_isTls = isTlsArg.getD true ∧
    (isTls w).2 = w ∧
    (isTls w).1 = w.stream.m_isTls :=
  ⟨rfl, rfl, rfl, rfl, rfl, rfl⟩

/-- C9: in TCP mode `async_teardown` invokes no handler, and what it does is
the same for every handler: the handler passed is dropped, after
`tcp().close()`.  In TLS mode the handler is invoked.  In both modes what
teardown does is the same for every role. -/
theorem async_teardown_tcp_mode_drops_handler (P : Layers Tcp Ssl B E Ioc Ctx Sock)
    (role other : role_type) (handler : H) (w : World Tcp Ssl B H E) :
    (w.stream.m_isTls = false →
      (async_teardown P role handler w).completions = w.completions ∧
      (async_teardown P role handler w).trace = w.trace ++ [Call.tcp_close] ∧
      ∀ g : H, async_teardown P role g w = async_teardown P role handler w) ∧
    (w.stream.m_isTls = true →
      (async_teardown P role handler w).completions
        = w.completions ++
          [Completion.shutdown handler (P.tls_async_shutdown w.stream.toBeastTlsStream).2]) ∧
    async_teardown P other handler w = async_teardown P role handler w := by
  refine ⟨?_, ?_, rfl⟩
  · intro hm
    simp [async_teardown, isTls, hm, tcp_stream.close]
  · intro hm
    simp [async_teardown, isTls, hm, ssl_stream.async_shutdown]

/-- Witness of C9: teardown of the example object in TCP mode invokes no
handler; in TLS mode it invokes the handler passed. -/
theorem async_teardown_tcp_mode_drops_handler_witness :
    (async_teardown (demoLayers .success) .client 7 (demoPlain .success)).completions = [] ∧
    (async_teardown (demoLayers .success) .client 7 (demoTls .success)).completions
      = [Completion.shutdown 7 .success] :=
  ⟨((async_teardown_tcp_mode_drops_handler (demoLayers .success) .client .server 7
      (demoPlain .success)).1 rfl).1,
   (async_teardown_tcp_mode_drops_handler (demoLayers .success) .client .server 7
      (demoTls .success)).2.1 rfl⟩

/-- C10: `async_read_some`, `async_write_some`, `async_teardown`, `isTls` and
`tcp()` leave `m_isTls` as it was, and so does every finite sequence of reads
and writes; hence a read, write or teardown issued after `setIsTls` and any
such sequence goes to the layer named by that `setIsTls` call.  `tcp()` returns
the TCP stream of the object, the same one whatever the flag is set to. -/
theorem m_isTls_changed_by_setIsTls_only (P : Layers Tcp Ssl B E Ioc Ctx Sock) (buffers : B)
    (handler : H) (role : role_type) (ops : List (Op B H)) (isTlsArg : Option Bool)
    (w : World Tcp Ssl B H E) :
    (async_read_some P buffers handler w).2.stream.m_isTls = w.stream.m_isTls ∧
    (async_write_some P buffers handler w).2.stream.m_isTls = w.stream.m_isTls ∧
    (async_teardown P role handler w).stream.m_isTls = w.stream.m_isTls ∧
    (isTls w).2.stream.m_isTls = w.stream.m_isTls ∧
    (tcp w).2.stream.m_isTls = w.stream.m_isTls ∧
    (runOps P ops w).2.stream.m_isTls = w.stream.m_isTls ∧
    ((∃ c, (async_read_some P buffers handler (runOps P ops (setIsTls isTlsArg w)).2).2.trace
          = (runOps P ops (setIsTls isTlsArg w)).2.trace ++ [c] ∧
        c.onTls = isTlsArg.getD true) ∧
      (∃ c, (async_write_some P buffers handler (runOps P ops (setIsTls isTlsArg w)).2).2.trace
          = (runOps P ops (setIsTls isTlsArg w)).2.trace ++ [c] ∧
        c.onTls = isTlsArg.getD true) ∧
      (∃ c, (async_teardown P role handler (runOps P ops (setIsTls isTlsArg w)).2).trace
          = (runOps P ops (setIsTls isTlsArg w)).2.trace ++ [c] ∧
        c.onTls = isTlsArg.getD true)) ∧
    (tcp w).1 = w.stream.next_layer ∧
    (tcp w).2 = w ∧
    (tcp (setIsTls isTlsArg w)).1 = (tcp w).1 := by
  refine ⟨?_, ?_, ?_, rfl, rfl, ?_, ?_, rfl, rfl, rfl⟩
  · exact Op.run_keeps_flag P (Op.read buffers handler) w
  · exact Op.run_keeps_flag P (Op.write buffers handler) w
  · cases hv : w.stream.m_isTls <;>
      simp [async_teardown, isTls, hv, tcp_stream.close, ssl_stream.async_shutdown]
  · exact runOps_keeps_flag P ops w
  · have hf : (runOps P ops (setIsTls isTlsArg w)).2.stream.m_isTls = isTlsArg.getD true :=
      runOps_keeps_flag P ops (setIsTls isTlsArg w)
    have h := one_call_on_selected_layer P (runOps P ops (setIsTls isTlsArg w)).2 buffers
      handler role
    rw [hf] at h
    exact h

end BeastTlsOrTcp
